import Mathlib

/-!
Shallow embedding of `src/EyeTest.py` (function `analyze_astigmatism`).

The script is a linear pipeline: file selection → decode → grayscale →
Gaussian blur → Canny edge detection → contour extraction → largest-contour
selection by area → ellipse fit → axis-ratio computation → threshold
classification → report.

External OpenCV stages (imread, cvtColor, GaussianBlur, Canny, findContours,
fitEllipse) are modelled as fields of a `CVLib` record of pure functions: the
script's own control flow, guards, ratio arithmetic and classification are
embedded exactly.  `cv2.contourArea` is modelled concretely by the shoelace
(Green) formula over integer points, which is its documented semantics, since
the largest-contour claim is about that formula.  Numeric values are `ℚ`;
Python's `float('inf')` sentinel becomes the `RatioValue.inf` constructor.
The numeric report lines (printed with two decimals) are carried by the
`Outcome` record fields; diagnostic messages are carried verbatim (quotes
elided) in `Outcome.printed`.
-/

/-- A contour point, as extracted from the edge map: integer pixel coords. -/
abbrev Pt := Int × Int

/-- A contour: an ordered sequence of 2D integer points. -/
abbrev Contour := List Pt

/-- A raster image: a grid of pixel samples (the concrete representation is
irrelevant to the claims; stages transforming it are `CVLib` parameters). -/
abbrev Image := List (List Nat)

/-- The 5-tuple returned by `cv2.fitEllipse`: center `(x, y)`, the two axis
lengths in the order the library returns them, and the rotation angle.  The
script destructures this as `(x, y), (major_axis, minor_axis), angle`. -/
structure EllipseFit where
  cx : ℚ
  cy : ℚ
  axis1 : ℚ
  axis2 : ℚ
  angle : ℚ
deriving Repr, DecidableEq

/-- The value bound to `axis_ratio`: either a finite quotient or the
positive-infinity sentinel `float('inf')` used on the degenerate path. -/
inductive RatioValue where
  | finite (q : ℚ)
  | inf
deriving Repr, DecidableEq

/-- Which single window the run displays (`plt.show`), if any. -/
inductive DisplayKind where
  | noWindow
  | originalImage
  | edgeMap
  | resultImage
deriving Repr, DecidableEq

/-- Observable outcome of one run: console lines, the displayed window, and
the numeric results (ellipse fit, axis ratio, classification verdict;
`interp = some true` means the possible-astigmatism branch printed). -/
structure Outcome where
  printed : List String
  display : DisplayKind
  fitted : Option EllipseFit := none
  axis_ratio : Option RatioValue := none
  interp : Option Bool := none
deriving Repr, DecidableEq

/-- The external OpenCV stages the script calls, as pure functions.  The
blur kernel (7,7) and Canny thresholds (30,150) are fixed constants in the
script and are absorbed into the respective stage functions. -/
structure CVLib where
  imread : String → Option Image
  cvtColor : Image → Image
  gaussianBlur : Image → Image
  canny : Image → Image
  findContours : Image → List Contour
  fitEllipse : Contour → EllipseFit

/-- Cross product term of the shoelace sum for consecutive points. -/
def cross (p q : Pt) : Int := p.1 * q.2 - q.1 * p.2

/-- Cyclic shoelace sum: edges between consecutive points plus the closing
edge back to `first`. -/
def shoelaceAux (first : Pt) : List Pt → Int
  | [] => 0
  | [p] => cross p first
  | p :: q :: rest => cross p q + shoelaceAux first (q :: rest)

/-- Model of `cv2.contourArea`: half the absolute value of the shoelace
(Green formula) sum — polygon area, not perimeter or point count. -/
def contourArea (c : Contour) : ℚ :=
  match c with
  | [] => 0
  | p :: _ => ((shoelaceAux p c).natAbs : ℚ) / 2

/-- Python `max(xs, key=key)` accumulator: the current maximum is replaced
only when a strictly greater key appears, so the first maximum is kept. -/
def pyMaxBy {α : Type} (key : α → ℚ) (a : α) : List α → α
  | [] => a
  | x :: xs => pyMaxBy key (if key a < key x then x else a) xs

/-- `largest_contour = max(contours, key=cv2.contourArea)` guarded by the
emptiness check `if not contours`. -/
def selectLargest : List Contour → Option Contour
  | [] => none
  | c :: cs => some (pyMaxBy contourArea c cs)

/-- Model of `os.path.basename`: the component after the last slash. -/
def basename (p : String) : String := (p.splitOn "/").getLastD p

def noSelectionMsg : String := "No image selected. Exiting."

def selectedMsg (p : String) : String := "Selected image: " ++ basename p

def decodeErrorMsg (p : String) : String :=
  "Error: Could not load image from " ++ p ++
    ". Please check if the file exists and is a valid image format."

def noContoursMsg : String :=
  "No contours found in the image. Ensure the image clearly shows the eye/cornea with good contrast."

def insufficientPointsMsg : String :=
  "Not enough points found in the largest contour to fit an ellipse. The contour might be too small, fragmented, or poorly detected."

def minorZeroWarning : String :=
  "Warning: Minor axis is zero. Cannot calculate a meaningful axis ratio. This may indicate a highly elongated or degenerate ellipse fit."

def resultsHeader : String := "--- Analysis Results ---"

/-- The classification threshold constant `1.1` of the script. -/
def threshold : ℚ := 11 / 10

/-- The comparison `axis_ratio > 1.1`; Python's `float('inf') > 1.1` is
`True`, so the sentinel always exceeds the threshold. -/
def exceedsThreshold : RatioValue → Bool
  | .inf => true
  | .finite q => decide (threshold < q)

/-- The first line printed by each interpretation branch. -/
def interpLine (b : Bool) : String :=
  if b then "Interpretation: Possible Astigmatism Detected."
  else "Interpretation: No Significant Astigmatism Indicated by Shape Ratio."

/-- The body of `analyze_astigmatism`, from the file-dialog result on.  The
dialog result is the `image_path` argument (`""` when the user dismissed the
dialog, which is the falsy case of `if not image_path`). -/
def analyze (lib : CVLib) (image_path : String) : Outcome :=
  if image_path = "" then
    { printed := [noSelectionMsg], display := .noWindow }
  else
    let selMsg := selectedMsg image_path
    match lib.imread image_path with
    | none =>
      { printed := [selMsg, decodeErrorMsg image_path], display := .noWindow }
    | some image =>
      let gray := lib.cvtColor image
      let blurred := lib.gaussianBlur gray
      let edges := lib.canny blurred
      let contours := lib.findContours edges
      match selectLargest contours with
      | none =>
        { printed := [selMsg, noContoursMsg], display := .originalImage }
      | some largest_contour =>
        if largest_contour.length < 5 then
          { printed := [selMsg, insufficientPointsMsg], display := .edgeMap }
        else
          let e := lib.fitEllipse largest_contour
          let major_axis := e.axis1
          let minor_axis := e.axis2
          let degenerate := min major_axis minor_axis = 0
          let axis_ratio : RatioValue :=
            if degenerate then .inf
            else .finite (max major_axis minor_axis / min major_axis minor_axis)
          let warn : List String := if degenerate then [minorZeroWarning] else []
          let verdict := exceedsThreshold axis_ratio
          { printed := selMsg :: warn ++ [resultsHeader, interpLine verdict],
            display := .resultImage,
            fitted := some e,
            axis_ratio := some axis_ratio,
            interp := some verdict }

/-- Running the whole pipeline twice on the same input. -/
def runTwice (lib : CVLib) (p : String) : Outcome × Outcome :=
  (analyze lib p, analyze lib p)

/-- The accumulator of Python `max(xs, key=key)` either keeps the initial
element (when nothing in the list has a strictly greater key) or returns the
first element of the list whose key strictly dominates everything before it
and is not exceeded after it. -/
theorem pyMaxBy_first_max {α : Type} (key : α → ℚ) :
    ∀ (xs : List α) (a : α),
      (pyMaxBy key a xs = a ∧ ∀ y ∈ xs, key y ≤ key a) ∨
      (key a < key (pyMaxBy key a xs) ∧
        ∃ l₁ l₂, xs = l₁ ++ pyMaxBy key a xs :: l₂ ∧
          (∀ y ∈ l₁, key y < key (pyMaxBy key a xs)) ∧
          (∀ y ∈ l₂, key y ≤ key (pyMaxBy key a xs)))
  | [], a => Or.inl ⟨rfl, by simp⟩
  | x :: t, a => by
    by_cases h : key a < key x
    · have hunfold : pyMaxBy key a (x :: t) = pyMaxBy key x t := by
        simp only [pyMaxBy, if_pos h]
      rw [hunfold]
      rcases pyMaxBy_first_max key t x with ⟨heq, hall⟩ | ⟨hlt, l₁, l₂, hsplit, h₁, h₂⟩
      · right
        rw [heq]
        exact ⟨h, [], t, rfl, by simp, hall⟩
      · right
        refine ⟨h.trans hlt, x :: l₁, l₂, congrArg (List.cons x) hsplit, ?_, h₂⟩
        intro y hy
        rcases List.mem_cons.mp hy with rfl | hy
        · exact hlt
        · exact h₁ y hy
    · have hunfold : pyMaxBy key a (x :: t) = pyMaxBy key a t := by
        simp only [pyMaxBy, if_neg h]
      rw [hunfold]
      rcases pyMaxBy_first_max key t a with ⟨heq, hall⟩ | ⟨hlt, l₁, l₂, hsplit, h₁, h₂⟩
      · left
        refine ⟨heq, ?_⟩
        intro y hy
        rcases List.mem_cons.mp hy with rfl | hy
        · exact not_lt.mp h
        · exact hall y hy
      · right
        refine ⟨hlt, x :: l₁, l₂, congrArg (List.cons x) hsplit, ?_, h₂⟩
        intro y hy
        rcases List.mem_cons.mp hy with rfl | hy
        · exact lt_of_le_of_lt (not_lt.mp h) hlt
        · exact h₁ y hy

/-- C5: for every non-empty contour list, the selected contour is one of the
contours, its shoelace area is maximal (strictly above everything extracted
before it, at least everything after it), i.e. the first maximum in
extraction order is chosen; selection is a pure function of the list, hence
deterministic. -/
theorem c5_largest_contour_selection (contours : List Contour)
    (h : contours ≠ []) :
    ∃ m l₁ l₂, selectLargest contours = some m ∧
      contours = l₁ ++ m :: l₂ ∧
      (∀ y ∈ l₁, contourArea y < contourArea m) ∧
      (∀ y ∈ l₂, contourArea y ≤ contourArea m) := by
  match contours, h with
  | c :: cs, _ =>
    rcases pyMaxBy_first_max contourArea cs c with ⟨heq, hall⟩ | ⟨hlt, l₁, l₂, hsplit, h₁, h₂⟩
    · refine ⟨c, [], cs, ?_, rfl, by simp, ?_⟩
      · simp [selectLargest, heq]
      · intro y hy
        exact heq ▸ hall y hy
    · refine ⟨pyMaxBy contourArea c cs, c :: l₁, l₂, rfl, congrArg (List.cons c) hsplit, ?_, h₂⟩
      intro y hy
      rcases List.mem_cons.mp hy with rfl | hy
      · exact hlt
      · exact h₁ y hy

/-- C9: dismissing the file dialog prints exactly the exit message and
performs no pipeline stage: no window, no fit, no ratio, no verdict. -/
theorem c9_empty_selection (lib : CVLib) :
    analyze lib "" =
      { printed := ["No image selected. Exiting."], display := .noWindow,
        fitted := none, axis_ratio := none, interp := none } := by
  simp [analyze, noSelectionMsg]

/-- C8: an undecodable image halts the run right after the decode stage:
only the selection line and a decode-failure message are printed, the
failure message contains the given path, no window is shown, and no
downstream result (fit, ratio, verdict) is produced. -/
theorem c8_decode_failure (lib : CVLib) (p : String) (hp : p ≠ "")
    (hi : lib.imread p = none) :
    analyze lib p =
      { printed := [selectedMsg p, decodeErrorMsg p], display := .noWindow,
        fitted := none, axis_ratio := none, interp := none } ∧
    ∃ s t, decodeErrorMsg p = s ++ p ++ t := by
  refine ⟨?_, "Error: Could not load image from ",
    ". Please check if the file exists and is a valid image format.", rfl⟩
  simp [analyze, hp, hi]

/-- C7: when contour extraction yields no contours, the run reports it,
displays the original image (not the edge map), and halts with no
downstream result. -/
theorem c7_no_contours (lib : CVLib) (p : String) (img : Image)
    (hp : p ≠ "") (hi : lib.imread p = some img)
    (hc : lib.findContours (lib.canny (lib.gaussianBlur (lib.cvtColor img))) = []) :
    analyze lib p =
      { printed := [selectedMsg p, noContoursMsg], display := .originalImage,
        fitted := none, axis_ratio := none, interp := none } := by
  simp [analyze, hp, hi, hc, selectLargest]

/-- C4: the ellipse fitter runs only on a selected contour with at least 5
points: with fewer than 5 points the run prints the insufficient-points
message, displays the edge map and halts without any fit; with 5 or more
points the fit of exactly the selected contour is produced. -/
theorem c4_fit_requires_five_points (lib : CVLib) (p : String) (img : Image)
    (L : Contour) (hp : p ≠ "") (hi : lib.imread p = some img)
    (hsel : selectLargest
      (lib.findContours (lib.canny (lib.gaussianBlur (lib.cvtColor img)))) = some L) :
    (L.length < 5 →
      analyze lib p =
        { printed := [selectedMsg p, insufficientPointsMsg], display := .edgeMap,
          fitted := none, axis_ratio := none, interp := none }) ∧
    (¬ L.length < 5 →
      (analyze lib p).fitted = some (lib.fitEllipse L)) := by
  constructor
  · intro hlen
    simp [analyze, hp, hi, hsel, hlen]
  · intro hlen
    simp [analyze, hp, hi, hsel, hlen]

/-- A 5-point contour used by the concrete witnesses. -/
def wSquare : Contour := [(0,0), (4,0), (4,4), (2,6), (0,4)]

/-- A concrete stage library: decodes everything to a one-pixel image,
keeps images unchanged through grayscale/blur/edges, extracts the single
contour `wSquare`, and fits an ellipse with axes 4 and 2. -/
def wLib : CVLib where
  imread := fun _ => some [[0]]
  cvtColor := id
  gaussianBlur := id
  canny := id
  findContours := fun _ => [wSquare]
  fitEllipse := fun _ => ⟨1, 2, 4, 2, 0⟩

/-- Stage library whose contour extraction finds nothing. -/
def wLibNoContours : CVLib := { wLib with findContours := fun _ => [] }

/-- Stage library whose decoder rejects every path. -/
def wLibNoImage : CVLib := { wLib with imread := fun _ => none }

/-- Stage library whose fit is degenerate: second axis length zero. -/
def wLibDegenerate : CVLib := { wLib with fitEllipse := fun _ => ⟨1, 2, 3, 0, 0⟩ }

/-- Stage library extracting a contour of fewer than 5 points. -/
def wLibShortContour : CVLib := { wLib with findContours := fun _ => [[(0,0), (1,0), (1,1)]] }

theorem c8_decode_failure_witness :
    analyze wLibNoImage "eye.png" =
      { printed := [selectedMsg "eye.png", decodeErrorMsg "eye.png"],
        display := .noWindow, fitted := none, axis_ratio := none,
        interp := none } ∧
    ∃ s t, decodeErrorMsg "eye.png" = s ++ "eye.png" ++ t :=
  c8_decode_failure wLibNoImage "eye.png" (by decide) rfl

theorem c7_no_contours_witness :
    analyze wLibNoContours "eye.png" =
      { printed := [selectedMsg "eye.png", noContoursMsg],
        display := .originalImage, fitted := none, axis_ratio := none,
        interp := none } :=
  c7_no_contours wLibNoContours "eye.png" [[0]] (by decide) rfl rfl

theorem c4_fit_requires_five_points_witness :
    (analyze wLib "eye.png").fitted = some (wLib.fitEllipse wSquare) ∧
    analyze wLibShortContour "eye.png" =
      { printed := [selectedMsg "eye.png", insufficientPointsMsg],
        display := .edgeMap, fitted := none, axis_ratio := none,
        interp := none } :=
  ⟨(c4_fit_requires_five_points wLib "eye.png" [[0]] wSquare (by decide) rfl
      rfl).2 (by decide),
   (c4_fit_requires_five_points wLibShortContour "eye.png" [[0]]
      [(0,0), (1,0), (1,1)] (by decide) rfl rfl).1 (by decide)⟩

/-- C1: once a fit is produced, the axis ratio is
max(major,minor)/min(major,minor); when min(major,minor) = 0 the run prints
the warning, uses the positive-infinity sentinel instead of dividing, and
still continues to classification and reporting (a verdict is produced and
the result window is displayed) — the degenerate fit is the one non-fatal
condition. -/
theorem c1_axis_ratio_computation (lib : CVLib) (p : String) (img : Image)
    (L : Contour) (hp : p ≠ "") (hi : lib.imread p = some img)
    (hsel : selectLargest
      (lib.findContours (lib.canny (lib.gaussianBlur (lib.cvtColor img)))) = some L)
    (hlen : ¬ L.length < 5) :
    (analyze lib p).display = .resultImage ∧
    (analyze lib p).interp.isSome = true ∧
    (min (lib.fitEllipse L).axis1 (lib.fitEllipse L).axis2 = 0 →
      (analyze lib p).axis_ratio = some .inf ∧
      (analyze lib p).printed =
        [selectedMsg p, minorZeroWarning, resultsHeader, interpLine true]) ∧
    (min (lib.fitEllipse L).axis1 (lib.fitEllipse L).axis2 ≠ 0 →
      (analyze lib p).axis_ratio =
        some (.finite (max (lib.fitEllipse L).axis1 (lib.fitEllipse L).axis2 /
          min (lib.fitEllipse L).axis1 (lib.fitEllipse L).axis2)) ∧
      (analyze lib p).printed =
        [selectedMsg p, resultsHeader,
          interpLine (exceedsThreshold (.finite
            (max (lib.fitEllipse L).axis1 (lib.fitEllipse L).axis2 /
              min (lib.fitEllipse L).axis1 (lib.fitEllipse L).axis2)))]) := by
  by_cases hz : min (lib.fitEllipse L).axis1 (lib.fitEllipse L).axis2 = 0
  · simp [analyze, hp, hi, hsel, hlen, hz, exceedsThreshold]
  · simp [analyze, hp, hi, hsel, hlen, hz]

theorem c1_axis_ratio_computation_witness :
    (analyze wLib "eye.png").axis_ratio =
      some (.finite (max (wLib.fitEllipse wSquare).axis1 (wLib.fitEllipse wSquare).axis2 /
        min (wLib.fitEllipse wSquare).axis1 (wLib.fitEllipse wSquare).axis2)) ∧
    (analyze wLib "eye.png").printed =
      [selectedMsg "eye.png", resultsHeader,
        interpLine (exceedsThreshold (.finite
          (max (wLib.fitEllipse wSquare).axis1 (wLib.fitEllipse wSquare).axis2 /
            min (wLib.fitEllipse wSquare).axis1 (wLib.fitEllipse wSquare).axis2)))] :=
  (c1_axis_ratio_computation wLib "eye.png" [[0]] wSquare (by decide) rfl rfl
    (by decide)).2.2.2 (by decide)

/-- C2: the verdict printed is the possible-astigmatism one exactly when the
axis ratio exceeds the fixed constant 1.1; a finite ratio of 1.099 or
exactly 1.1 classifies as no significant astigmatism and 1.101 as possible
astigmatism; and every run that computes an axis ratio classifies it with
this very comparison. -/
theorem c2_classification_threshold :
    threshold = 11 / 10 ∧
    (∀ q : ℚ, exceedsThreshold (.finite q) = true ↔ 11 / 10 < q) ∧
    exceedsThreshold (.finite (1099 / 1000)) = false ∧
    exceedsThreshold (.finite (11 / 10)) = false ∧
    exceedsThreshold (.finite (1101 / 1000)) = true ∧
    (∀ (lib : CVLib) (p : String) (r : RatioValue),
      (analyze lib p).axis_ratio = some r →
      (analyze lib p).interp = some (exceedsThreshold r)) := by
  refine ⟨rfl, ?_, ?_, ?_, ?_, ?_⟩
  · intro q
    simp [exceedsThreshold, threshold]
  · simp only [exceedsThreshold, decide_eq_false_iff_not, threshold]
    norm_num
  · simp only [exceedsThreshold, decide_eq_false_iff_not, threshold]
    norm_num
  · simp only [exceedsThreshold, decide_eq_true_eq, threshold]
    norm_num
  · intro lib p r hr
    by_cases hp : p = ""
    · simp [analyze, hp] at hr
    · cases hi : lib.imread p with
      | none => simp [analyze, hp, hi] at hr
      | some img =>
        cases hsel : selectLargest
            (lib.findContours (lib.canny (lib.gaussianBlur (lib.cvtColor img)))) with
        | none => simp [analyze, hp, hi, hsel] at hr
        | some L =>
          by_cases hlen : L.length < 5
          · simp [analyze, hp, hi, hsel, hlen] at hr
          · by_cases hz : min (lib.fitEllipse L).axis1 (lib.fitEllipse L).axis2 = 0
            · simp [analyze, hp, hi, hsel, hlen, hz] at hr
              subst hr
              simp [analyze, hp, hi, hsel, hlen, hz]
            · simp [analyze, hp, hi, hsel, hlen, hz] at hr
              subst hr
              simp [analyze, hp, hi, hsel, hlen, hz]

theorem c2_classification_threshold_witness :
    (analyze wLib "eye.png").interp =
      some (exceedsThreshold (RatioValue.finite 2)) :=
  c2_classification_threshold.2.2.2.2.2 wLib "eye.png" (RatioValue.finite 2)
    (by
      have h : ("eye.png" : String) ≠ "" := by decide
      norm_num [analyze, h, wLib, wSquare, selectLargest, pyMaxBy, min_def, max_def])

/-- C6: the pipeline is a pure function of the stage library and the input
path, so two runs on the identical input produce identical outcomes —
the same printed lines, fit, axis ratio, verdict and display. -/
theorem c6_pipeline_deterministic (lib : CVLib) (p : String) :
    (runTwice lib p).1 = (runTwice lib p).2 := rfl

/-- C10: on the degenerate path the sentinel is compared against the
threshold like any ratio, and infinity exceeds 1.1, so a degenerate fit is
always reported as possible astigmatism — not suppressed or separate. -/
theorem c10_degenerate_fit_classification (lib : CVLib) (p : String)
    (img : Image) (L : Contour) (hp : p ≠ "") (hi : lib.imread p = some img)
    (hsel : selectLargest
      (lib.findContours (lib.canny (lib.gaussianBlur (lib.cvtColor img)))) = some L)
    (hlen : ¬ L.length < 5)
    (hz : min (lib.fitEllipse L).axis1 (lib.fitEllipse L).axis2 = 0) :
    (analyze lib p).axis_ratio = some RatioValue.inf ∧
    (analyze lib p).interp = some true ∧
    interpLine true ∈ (analyze lib p).printed ∧
    exceedsThreshold RatioValue.inf = true := by
  simp [analyze, hp, hi, hsel, hlen, hz, exceedsThreshold]

theorem c10_degenerate_fit_classification_witness :
    (analyze wLibDegenerate "eye.png").axis_ratio = some RatioValue.inf ∧
    (analyze wLibDegenerate "eye.png").interp = some true ∧
    interpLine true ∈ (analyze wLibDegenerate "eye.png").printed ∧
    exceedsThreshold RatioValue.inf = true :=
  c10_degenerate_fit_classification wLibDegenerate "eye.png" [[0]] wSquare
    (by decide) rfl rfl (by decide) (by decide)

theorem c5_largest_contour_selection_witness :
    ∃ m l₁ l₂, selectLargest [wSquare, [(0,0), (1,0), (1,1)]] = some m ∧
      [wSquare, [(0,0), (1,0), (1,1)]] = l₁ ++ m :: l₂ ∧
      (∀ y ∈ l₁, contourArea y < contourArea m) ∧
      (∀ y ∈ l₂, contourArea y ≤ contourArea m) :=
  c5_largest_contour_selection [wSquare, [(0,0), (1,0), (1,1)]] (by decide)
